import Mathlib

/-!
Verification of the `llm-imager` provider/transport subsystem.

Shallow embedding of:
* `pkg/httputil/client.go` — retrying HTTP transport (`Client.Do`)
* `internal/provider/registry.go` — provider registry (`Register`, `GetByModel`)
  and the OpenRouter chat-completions adapter
* `internal/provider/openai.go`, `internal/provider/stability.go`,
  the Replicate adapter and the Google adapter
* `internal/generator/request.go` — request/response data model

HTTP exchanges, JSON (un)marshalling and base64 decoding are abstracted as
oracle parameters; everything else is translated statement by statement from
the Go source.  Time is modelled in abstract units (Go seconds); a context is
modelled by the instant `cancelAt` at which its Done channel fires.
-/

namespace LLMImager

/-! ## Transport: `pkg/httputil/client.go`, `Client.Do` -/

/-- Outcome of one underlying `c.httpClient.Do(reqClone)` call:
either a transport-level error or a response with a status code. -/
inductive AttemptOutcome
  | netErr (msg : String)
  | resp (status : Nat)
  deriving DecidableEq, Repr

/-- `resp.StatusCode >= 500 || resp.StatusCode == 429` (client.go line 79). -/
def retryableStatus (s : Nat) : Bool := decide (500 ≤ s) || s == 429

/-- An attempt outcome on which the loop `continue`s. -/
def retryableOutcome : AttemptOutcome → Bool
  | .netErr _ => true
  | .resp s => retryableStatus s

/-- Result of `Client.Do`.  `attempts` counts the HTTP attempts performed.
In `exhausted`, `last` is the recorded `lastErr` cause: the underlying error,
or the status of `fmt.Errorf("server error: %d", resp.StatusCode)`. -/
inductive DoResult
  | success (status : Nat) (attempts : Nat)
  | cancelled (attempts : Nat)
  | exhausted (last : Option AttemptOutcome) (attempts : Nat)
  deriving DecidableEq, Repr

def DoResult.attempts : DoResult → Nat
  | .success _ n => n
  | .cancelled n => n
  | .exhausted _ n => n

/-- Observable events of one `Client.Do` run. -/
inductive Ev
  | wait (delay : Nat)
  | attempt (idx : Nat) (r : AttemptOutcome)
  deriving DecidableEq, Repr

/-- Whether a context whose Done channel fires at `cancelAt` interrupts a
wait of length `delay` starting at instant `start`
(the `select` in client.go lines 58-62). -/
def cancelsDuring (cancelAt : Option Nat) (start delay : Nat) : Bool :=
  match cancelAt with
  | none => false
  | some t => decide (t < start + delay)

/-- The retry loop of `Client.Do` (client.go lines 54-86).
`attempt` is the loop counter, `fuel` the number of remaining iterations
(`maxRetries + 1 - attempt`), `elapsed` the time spent so far, `lastErr`
the recorded last error.  The oracle gives the outcome of each attempt. -/
def doLoop (oracle : Nat → AttemptOutcome) (cancelAt : Option Nat)
    (attempt fuel elapsed : Nat) (lastErr : Option AttemptOutcome) :
    DoResult × List Ev :=
  match fuel with
  | 0 => (.exhausted lastErr attempt, [])
  | fuel' + 1 =>
    if attempt ≠ 0 ∧ cancelsDuring cancelAt elapsed (2 ^ attempt) = true then
      (.cancelled attempt, [])
    else
      let pre : List Ev := if attempt = 0 then [] else [.wait (2 ^ attempt)]
      let elapsed' : Nat := if attempt = 0 then elapsed else elapsed + 2 ^ attempt
      match oracle attempt with
      | .netErr m =>
          let r := doLoop oracle cancelAt (attempt + 1) fuel' elapsed' (some (.netErr m))
          (r.1, pre ++ .attempt attempt (.netErr m) :: r.2)
      | .resp s =>
          if retryableStatus s then
            let r := doLoop oracle cancelAt (attempt + 1) fuel' elapsed' (some (.resp s))
            (r.1, pre ++ .attempt attempt (.resp s) :: r.2)
          else
            (.success s (attempt + 1), pre ++ [.attempt attempt (.resp s)])

/-- `Client.Do` with `maxRetries` retries: the loop runs for
`attempt = 0 .. maxRetries`, i.e. `maxRetries + 1` iterations. -/
def clientDo (maxRetries : Nat) (oracle : Nat → AttemptOutcome)
    (cancelAt : Option Nat) : DoResult × List Ev :=
  doLoop oracle cancelAt 0 (maxRetries + 1) 0 none

/-- Total backoff time accumulated once the waits before retries `1..k`
have all completed: `2^1 + ... + 2^k = 2^(k+1) - 2`. -/
def backoffElapsed (k : Nat) : Nat := 2 ^ (k + 1) - 2

lemma backoffElapsed_succ (k : Nat) (hk : 1 ≤ k) :
    backoffElapsed (k - 1) + 2 ^ k = backoffElapsed k := by
  obtain ⟨k, rfl⟩ := Nat.exists_eq_add_of_le hk
  simp only [backoffElapsed, Nat.add_sub_cancel_left]
  have h2 : (2 : Nat) ≤ 2 ^ (1 + k) := Nat.one_lt_two_pow_iff.mpr (by omega)
  have h3 : 2 ^ (1 + k + 1) = 2 ^ (1 + k) + 2 ^ (1 + k) := by ring
  have h4 : 2 ^ (k + 1) = 2 ^ (1 + k) := by ring
  omega

lemma backoffElapsed_mono {a b : Nat} (h : a ≤ b) :
    backoffElapsed a ≤ backoffElapsed b :=
  Nat.sub_le_sub_right (Nat.pow_le_pow_right (by norm_num) (by omega)) 2

/-- The number of attempts performed never exceeds `attempt + fuel`. -/
lemma doLoop_attempts_le (oracle : Nat → AttemptOutcome) (cancelAt : Option Nat) :
    ∀ fuel attempt elapsed lastErr,
      (doLoop oracle cancelAt attempt fuel elapsed lastErr).1.attempts ≤ attempt + fuel := by
  intro fuel
  induction fuel with
  | zero => intro attempt elapsed lastErr; simp [doLoop, DoResult.attempts]
  | succ fuel ih =>
    intro attempt elapsed lastErr
    rw [doLoop]
    split
    · simp [DoResult.attempts]
    · dsimp only
      rcases h : oracle attempt with m | s
      · dsimp only
        have := ih (attempt + 1) (if attempt = 0 then elapsed else elapsed + 2 ^ attempt)
          (some (.netErr m))
        omega
      · dsimp only
        by_cases hr : retryableStatus s
        · rw [if_pos hr]
          dsimp only
          have := ih (attempt + 1) (if attempt = 0 then elapsed else elapsed + 2 ^ attempt)
            (some (.resp s))
          omega
        · rw [if_neg hr]
          simp [DoResult.attempts]

/-- If attempts `attempt .. i-1` are all retryable and attempt `i` returns a
non-retryable status `s`, the loop returns `(resp, nil)` at attempt `i`. -/
lemma doLoop_success_at (oracle : Nat → AttemptOutcome) (s i : Nat)
    (hi : oracle i = .resp s) (hs : retryableStatus s = false) :
    ∀ fuel attempt elapsed lastErr, attempt ≤ i → i < attempt + fuel →
      (∀ j, attempt ≤ j → j < i → retryableOutcome (oracle j) = true) →
      (doLoop oracle none attempt fuel elapsed lastErr).1 = .success s (i + 1) := by
  intro fuel
  induction fuel with
  | zero => intro attempt elapsed lastErr h1 h2; omega
  | succ fuel ih =>
    intro attempt elapsed lastErr h1 h2 h3
    rw [doLoop]
    rw [if_neg (by simp [cancelsDuring])]
    dsimp only
    rcases Nat.eq_or_lt_of_le h1 with heq | hlt
    · subst heq
      rw [hi]
      dsimp only
      rw [if_neg (by simp [hs])]
    · rcases ho : oracle attempt with m | s'
      · dsimp only
        exact ih (attempt + 1) _ _ (by omega) (by omega) (fun j hj1 hj2 => h3 j (by omega) hj2)
      · have hr : retryableStatus s' = true := by
          have hh := h3 attempt le_rfl hlt
          rw [ho] at hh
          simpa [retryableOutcome] using hh
        dsimp only
        rw [if_pos hr]
        exact ih (attempt + 1) _ _ (by omega) (by omega) (fun j hj1 hj2 => h3 j (by omega) hj2)

/-- If every attempt in range is retryable, the loop exhausts its budget and
reports the cause of the last attempt. -/
lemma doLoop_exhausts (oracle : Nat → AttemptOutcome) :
    ∀ fuel attempt elapsed lastErr,
      (∀ j, attempt ≤ j → j < attempt + fuel → retryableOutcome (oracle j) = true) →
      (doLoop oracle none attempt fuel elapsed lastErr).1 =
        .exhausted (if fuel = 0 then lastErr else some (oracle (attempt + fuel - 1)))
          (attempt + fuel) := by
  intro fuel
  induction fuel with
  | zero => intro attempt elapsed lastErr _; simp [doLoop]
  | succ fuel ih =>
    intro attempt elapsed lastErr h
    rw [doLoop]
    rw [if_neg (by simp [cancelsDuring])]
    dsimp only
    have hr : retryableOutcome (oracle attempt) = true := h attempt le_rfl (by omega)
    rcases ho : oracle attempt with m | s'
    · dsimp only
      rw [ih (attempt + 1) _ _ (fun j hj1 hj2 => h j (by omega) (by omega))]
      rcases fuel with _ | fuel
      · simp [ho]
      · have e1 : attempt + 1 + (fuel + 1) - 1 = attempt + (fuel + 1 + 1) - 1 := by omega
        have e2 : attempt + 1 + (fuel + 1) = attempt + (fuel + 1 + 1) := by omega
        simp [e1, e2]
    · rw [ho] at hr
      simp only [retryableOutcome] at hr
      dsimp only
      rw [if_pos hr]
      rw [ih (attempt + 1) _ _ (fun j hj1 hj2 => h j (by omega) (by omega))]
      rcases fuel with _ | fuel
      · simp [ho]
      · have e1 : attempt + 1 + (fuel + 1) - 1 = attempt + (fuel + 1 + 1) - 1 := by omega
        have e2 : attempt + 1 + (fuel + 1) = attempt + (fuel + 1 + 1) := by omega
        simp [e1, e2]

/-- The first recorded event is always attempt 0: no wait precedes it and no
cancellation check happens before it. -/
lemma clientDo_trace_head (m : Nat) (oracle : Nat → AttemptOutcome)
    (cancelAt : Option Nat) :
    (clientDo m oracle cancelAt).2.head? = some (.attempt 0 (oracle 0)) := by
  rw [clientDo, doLoop]
  rw [if_neg (by simp)]
  dsimp only
  rcases oracle 0 with m' | s
  · simp
  · dsimp only
    by_cases hr : retryableStatus s
    · rw [if_pos hr]; simp
    · rw [if_neg hr]; simp

/-- Every attempt event with index `k ≥ 1` in the trace is immediately
preceded by a completed wait of `2 ^ k` time units. -/
lemma doLoop_wait_before_attempt (oracle : Nat → AttemptOutcome)
    (cancelAt : Option Nat) :
    ∀ fuel attempt elapsed lastErr k r,
      Ev.attempt k r ∈ (doLoop oracle cancelAt attempt fuel elapsed lastErr).2 →
      1 ≤ k →
      ∃ pre post, (doLoop oracle cancelAt attempt fuel elapsed lastErr).2 =
        pre ++ .wait (2 ^ k) :: .attempt k r :: post := by
  intro fuel
  induction fuel with
  | zero => intro attempt elapsed lastErr k r hmem _; simp [doLoop] at hmem
  | succ fuel ih =>
    intro attempt elapsed lastErr k r hmem hk
    rw [doLoop] at hmem ⊢
    by_cases hc : attempt ≠ 0 ∧ cancelsDuring cancelAt elapsed (2 ^ attempt) = true
    · rw [if_pos hc] at hmem; simp at hmem
    · rw [if_neg hc] at hmem ⊢
      dsimp only at hmem ⊢
      rcases ho : oracle attempt with m' | s
      · rw [ho] at hmem
        dsimp only at hmem ⊢
        rw [List.mem_append, List.mem_cons] at hmem
        rcases hmem with hpre | heq | hrest
        · by_cases ha : attempt = 0
          · simp [ha] at hpre
          · simp [ha] at hpre
        · rcases heq with ⟨rfl, rfl⟩
          rcases Nat.eq_zero_or_pos attempt with ha | ha
          · omega
          · have ha' : ¬ attempt = 0 := by omega
            refine ⟨[], (doLoop oracle cancelAt (attempt + 1) fuel
              (if attempt = 0 then elapsed else elapsed + 2 ^ attempt)
              (some (.netErr m'))).2, ?_⟩
            simp [ha']
        · obtain ⟨pre, post, hsplit⟩ := ih (attempt + 1) _ (some (.netErr m')) k r hrest hk
          refine ⟨(if attempt = 0 then ([] : List Ev) else [.wait (2 ^ attempt)]) ++
            .attempt attempt (.netErr m') :: pre, post, ?_⟩
          rw [hsplit]
          simp
      · rw [ho] at hmem
        dsimp only at hmem ⊢
        by_cases hr : retryableStatus s
        · rw [if_pos hr] at hmem ⊢
          dsimp only at hmem ⊢
          rw [List.mem_append, List.mem_cons] at hmem
          rcases hmem with hpre | heq | hrest
          · by_cases ha : attempt = 0
            · simp [ha] at hpre
            · simp [ha] at hpre
          · rcases heq with ⟨rfl, rfl⟩
            have ha' : ¬ attempt = 0 := by omega
            refine ⟨[], (doLoop oracle cancelAt (attempt + 1) fuel
              (if attempt = 0 then elapsed else elapsed + 2 ^ attempt)
              (some (.resp s))).2, ?_⟩
            simp [ha']
          · obtain ⟨pre, post, hsplit⟩ := ih (attempt + 1) _ (some (.resp s)) k r hrest hk
            refine ⟨(if attempt = 0 then ([] : List Ev) else [.wait (2 ^ attempt)]) ++
              .attempt attempt (.resp s) :: pre, post, ?_⟩
            rw [hsplit]
            simp
        · rw [if_neg hr] at hmem ⊢
          dsimp only at hmem ⊢
          rw [List.mem_append, List.mem_cons] at hmem
          rcases hmem with hpre | heq | hrest
          · by_cases ha : attempt = 0
            · simp [ha] at hpre
            · simp [ha] at hpre
          · rcases heq with ⟨rfl, rfl⟩
            have ha' : ¬ attempt = 0 := by omega
            refine ⟨[], [], ?_⟩
            simp [ha']
          · simp at hrest

/-- If the context fires during the backoff wait before retry `k` (all earlier
attempts having been retryable), the loop returns the cancellation error with
no further attempt: the trace records attempts `< k` only. -/
lemma doLoop_cancelled_at (oracle : Nat → AttemptOutcome) (T k : Nat)
    (hk : 1 ≤ k) (hT1 : backoffElapsed (k - 1) ≤ T) (hT2 : T < backoffElapsed k) :
    ∀ fuel a lastErr, a ≤ k → k < a + fuel →
      (∀ j, a ≤ j → j < k → retryableOutcome (oracle j) = true) →
      (doLoop oracle (some T) a fuel (backoffElapsed (a - 1)) lastErr).1 = .cancelled k
      ∧ ∀ j r, Ev.attempt j r ∈ (doLoop oracle (some T) a fuel
          (backoffElapsed (a - 1)) lastErr).2 → j < k := by
  intro fuel
  induction fuel with
  | zero => intro a lastErr h1 h2 _; omega
  | succ fuel ih =>
    intro a lastErr h1 h2 h3
    rw [doLoop]
    rcases Nat.eq_or_lt_of_le h1 with heq | hlt
    · subst heq
      have hcond : a ≠ 0 ∧ cancelsDuring (some T) (backoffElapsed (a - 1)) (2 ^ a) = true := by
        refine ⟨by omega, ?_⟩
        simp only [cancelsDuring, decide_eq_true_eq]
        rw [backoffElapsed_succ a hk]
        exact hT2
      rw [if_pos hcond]
      exact ⟨rfl, by simp⟩
    · have hcond : ¬ (a ≠ 0 ∧ cancelsDuring (some T) (backoffElapsed (a - 1)) (2 ^ a) = true) := by
        rintro ⟨ha0, hcd⟩
        simp only [cancelsDuring, decide_eq_true_eq] at hcd
        rw [backoffElapsed_succ a (by omega)] at hcd
        have : backoffElapsed a ≤ backoffElapsed (k - 1) := backoffElapsed_mono (by omega)
        omega
      rw [if_neg hcond]
      dsimp only
      have helapsed : (if a = 0 then backoffElapsed (a - 1)
          else backoffElapsed (a - 1) + 2 ^ a) = backoffElapsed (a + 1 - 1) := by
        by_cases ha0 : a = 0
        · subst ha0; simp
        · rw [if_neg ha0, backoffElapsed_succ a (by omega)]
          simp
      have hr : retryableOutcome (oracle a) = true := h3 a le_rfl hlt
      rcases ho : oracle a with m' | s
      · dsimp only
        rw [helapsed]
        obtain ⟨hres, htr⟩ := ih (a + 1) (some (.netErr m')) (by omega) (by omega)
          (fun j hj1 hj2 => h3 j (by omega) hj2)
        refine ⟨hres, ?_⟩
        intro j r hj
        rw [List.mem_append, List.mem_cons] at hj
        rcases hj with hpre | hj | hj
        · by_cases ha0 : a = 0 <;> simp [ha0] at hpre
        · rcases hj with ⟨rfl, rfl⟩; omega
        · exact htr j r hj
      · rw [ho] at hr
        simp only [retryableOutcome] at hr
        dsimp only
        rw [if_pos hr, helapsed]
        obtain ⟨hres, htr⟩ := ih (a + 1) (some (.resp s)) (by omega) (by omega)
          (fun j hj1 hj2 => h3 j (by omega) hj2)
        refine ⟨hres, ?_⟩
        intro j r hj
        rw [List.mem_append, List.mem_cons] at hj
        rcases hj with hpre | hj | hj
        · by_cases ha0 : a = 0 <;> simp [ha0] at hpre
        · rcases hj with ⟨rfl, rfl⟩; omega
        · exact htr j r hj

lemma backoffElapsed_zero : backoffElapsed 0 = 0 := by
  norm_num [backoffElapsed]

/-- C1: for every call to `Client.Do` with maximum retry count `m`, at most
`m + 1` HTTP attempts are performed; an attempt is retried exactly when the
underlying call errors, or the status is `≥ 500`, or the status is exactly
`429`, and any other status is returned immediately as a successful result
after `i + 1` attempts; if every attempt is retryable, the call returns a
single `max retries exceeded` error wrapping the last underlying cause. -/
theorem C1_transport_retry_policy (m : Nat) (oracle : Nat → AttemptOutcome)
    (cancelAt : Option Nat) (s i : Nat) :
    (clientDo m oracle cancelAt).1.attempts ≤ m + 1
    ∧ (i ≤ m → oracle i = .resp s → retryableStatus s = false →
        (∀ j, j < i → retryableOutcome (oracle j) = true) →
        (clientDo m oracle none).1 = .success s (i + 1))
    ∧ ((∀ j, j ≤ m → retryableOutcome (oracle j) = true) →
        (clientDo m oracle none).1 = .exhausted (some (oracle m)) (m + 1)) := by
  refine ⟨?_, ?_, ?_⟩
  · have := doLoop_attempts_le oracle cancelAt (m + 1) 0 0 none
    simpa [clientDo] using this
  · intro h1 h2 h3 h4
    exact doLoop_success_at oracle s i h2 h3 (m + 1) 0 0 none (by omega) (by omega)
      (fun j _ hj => h4 j hj)
  · intro h
    have := doLoop_exhausts oracle (m + 1) 0 0 none (fun j _ hj => h j (by omega))
    simpa [clientDo] using this

/-- Witness for C1 at concrete inputs: a 503 followed by a 200 succeeds on the
second attempt; persistent transport errors exhaust all `m + 1` attempts. -/
theorem C1_transport_retry_policy_witness :
    (clientDo 1 (fun n => if n = 0 then .resp 503 else .resp 200) none).1 = .success 200 2
    ∧ (clientDo 2 (fun _ => .netErr "conn refused") none).1 =
        .exhausted (some (.netErr "conn refused")) 3 := by
  constructor
  · exact (C1_transport_retry_policy 1 (fun n => if n = 0 then .resp 503 else .resp 200)
      none 200 1).2.1 (by omega) rfl (by decide)
      (fun j hj => by
        have : j = 0 := by omega
        subst this
        decide)
  · exact (C1_transport_retry_policy 2 (fun _ => .netErr "conn refused")
      none 0 0).2.2 (fun j _ => rfl)

/-- C2: no wait occurs before the first attempt (the trace starts with
attempt 0); every retry `k ≥ 1` is immediately preceded by a completed wait of
`2 ^ k` time units; and if the context fires during the backoff wait before
retry `k`, the call returns the cancellation error having performed only the
attempts `< k`. -/
theorem C2_transport_backoff_cancellable (m : Nat) (oracle : Nat → AttemptOutcome)
    (cancelAt : Option Nat) (k T : Nat) :
    (clientDo m oracle cancelAt).2.head? = some (.attempt 0 (oracle 0))
    ∧ (∀ j r, Ev.attempt j r ∈ (clientDo m oracle cancelAt).2 → 1 ≤ j →
        ∃ pre post, (clientDo m oracle cancelAt).2 =
          pre ++ .wait (2 ^ j) :: .attempt j r :: post)
    ∧ (1 ≤ k → k ≤ m → (∀ j, j < k → retryableOutcome (oracle j) = true) →
        backoffElapsed (k - 1) ≤ T → T < backoffElapsed k →
        (clientDo m oracle (some T)).1 = .cancelled k
        ∧ ∀ j r, Ev.attempt j r ∈ (clientDo m oracle (some T)).2 → j < k) := by
  refine ⟨clientDo_trace_head m oracle cancelAt, ?_, ?_⟩
  · intro j r hmem hj
    exact doLoop_wait_before_attempt oracle cancelAt (m + 1) 0 0 none j r hmem hj
  · intro hk1 hk2 hretry hT1 hT2
    have := doLoop_cancelled_at oracle T k hk1 hT1 hT2 (m + 1) 0 none (by omega) (by omega)
      (fun j _ hj => hretry j hj)
    rw [backoffElapsed_zero] at this
    exact this

/-- Witness for C2: with every status 500 and a context firing at instant 1
(during the first backoff wait), the call is cancelled after exactly one
attempt, and the trace starts with attempt 0 (no wait before it). -/
theorem C2_transport_backoff_cancellable_witness :
    (clientDo 2 (fun _ => .resp 500) (some 1)).1 = .cancelled 1
    ∧ (clientDo 2 (fun _ => .resp 500) (some 1)).2.head? =
        some (.attempt 0 (.resp 500)) := by
  constructor
  · exact ((C2_transport_backoff_cancellable 2 (fun _ => .resp 500) (some 1) 1 1).2.2
      (by omega) (by omega) (fun j _ => by decide) (by decide) (by decide)).1
  · exact (C2_transport_backoff_cancellable 2 (fun _ => .resp 500) (some 1) 1 1).1

/-! ## Registry: `internal/provider/registry.go` -/

/-- `provider.Model` (`src/unnamed/part_003`): model descriptor. -/
structure ProviderModel where
  id : String
  name : String
  provider : String
  sizes : List String
  features : List String
  deriving DecidableEq, Repr

/-- Abstraction of an adapter as seen by the registry: its `Name()` and its
`SupportedModels()`. -/
structure AdapterSpec where
  name : String
  supportedModels : List ProviderModel
  deriving DecidableEq, Repr

/-- Registry state.  Go maps are modelled as association lists with the most
recent binding first, so `List.lookup` realizes Go map lookup (inserting an
existing key overwrites it for lookup purposes). -/
structure Registry where
  providers : List (String × AdapterSpec)
  models : List (String × String)
  deriving DecidableEq, Repr

/-- `NewRegistry`. -/
def Registry.empty : Registry := ⟨[], []⟩

/-- `Registry.Register` (registry.go lines 25-42).  Returns the (possibly
updated) state together with the error, mirroring the mutation of the
receiver plus the returned `error`. -/
def Registry.register (r : Registry) (p : AdapterSpec) : Registry × Option String :=
  let name := p.name
  if (r.providers.lookup name).isSome then
    (r, some ("provider " ++ name ++ " already registered"))
  else
    ({ providers := (name, p) :: r.providers,
       models := p.supportedModels.foldl (fun ms md => (md.id, name) :: ms) r.models },
     none)

/-- `strings.Contains(modelID, "/")`, computed on the character list. -/
def containsSlash (s : String) : Bool :=
  s.data.any (fun c => c == '/')

/-- First component of `strings.SplitN(modelID, "/", 2)`: the text before the
first `/`. -/
def firstComponent (s : String) : String :=
  ⟨s.data.takeWhile (fun c => c != '/')⟩

/-- `Registry.GetByModel` (registry.go lines 57-76).  The Go version returns
`(Provider, error)`; a hit in the model index returns `r.providers[name]`
without checking presence, hence the `Option` inside `Except`. -/
def Registry.getByModel (r : Registry) (modelID : String) :
    Except String (Option AdapterSpec) :=
  let viaIndex : Except String (Option AdapterSpec) :=
    match r.models.lookup modelID with
    | some providerName => .ok (r.providers.lookup providerName)
    | none => .error ("no provider found for model " ++ modelID)
  if containsSlash modelID then
    match r.providers.lookup (firstComponent modelID) with
    | some p => .ok (some p)
    | none => viaIndex
  else
    viaIndex

/-- Lookup after the model-index fold of `Register`: every model of the list
maps to `name`; other keys fall through to the previous index. -/
lemma lookup_models_foldl (name : String) (x : String) :
    ∀ (l : List ProviderModel) (init : List (String × String)),
      (l.foldl (fun ms md => (md.id, name) :: ms) init).lookup x =
        if l.any (fun md => md.id == x) then some name else init.lookup x := by
  intro l
  induction l with
  | nil => intro init; simp
  | cons md rest ih =>
    intro init
    rw [List.foldl_cons, ih]
    by_cases hany : rest.any (fun md => md.id == x)
    · simp [hany]
    · by_cases hx : md.id = x
      · simp [hany, hx]
      · have hmdx : (md.id == x) = false := by simp [hx]
        have hxx : (x == md.id) = false := beq_eq_false_iff_ne.mpr (fun h => hx h.symm)
        simp [hany, hmdx, List.lookup, hxx]

/-- C4: registering an adapter whose name is already registered fails and
leaves the registry unchanged (the first adapter stays authoritative); a new
name succeeds and every advertised model ID is indexed to it. -/
theorem C4_registry_register (r : Registry) (p : AdapterSpec) :
    ((r.providers.lookup p.name).isSome →
      r.register p = (r, some ("provider " ++ p.name ++ " already registered")))
    ∧ (r.providers.lookup p.name = none →
      (r.register p).2 = none
      ∧ (r.register p).1.providers.lookup p.name = some p
      ∧ (∀ md ∈ p.supportedModels,
          (r.register p).1.models.lookup md.id = some p.name)) := by
  constructor
  · intro h
    rw [Registry.register, if_pos h]
  · intro h
    have hns : ¬ (r.providers.lookup p.name).isSome = true := by simp [h]
    refine ⟨?_, ?_, ?_⟩
    · rw [Registry.register, if_neg hns]
    · rw [Registry.register, if_neg hns]
      simp [List.lookup]
    · intro md hmd
      rw [Registry.register, if_neg hns]
      dsimp only
      rw [lookup_models_foldl]
      rw [if_pos]
      rw [List.any_eq_true]
      exact ⟨md, hmd, by simp⟩

/-- Witness for C4: a duplicate registration of `openai` errors and leaves the
state intact; a fresh registration indexes the advertised model. -/
theorem C4_registry_register_witness :
    (Registry.register
        ⟨[("openai", ⟨"openai", [⟨"openai/dall-e-3", "DALL-E 3", "openai", [], []⟩]⟩)],
         [("openai/dall-e-3", "openai")]⟩
        ⟨"openai", []⟩ =
      (⟨[("openai", ⟨"openai", [⟨"openai/dall-e-3", "DALL-E 3", "openai", [], []⟩]⟩)],
        [("openai/dall-e-3", "openai")]⟩,
       some ("provider " ++ "openai" ++ " already registered")))
    ∧ (Registry.register Registry.empty
        ⟨"openai", [⟨"openai/dall-e-3", "DALL-E 3", "openai", [], []⟩]⟩).2 = none
    ∧ ((Registry.register Registry.empty
        ⟨"openai", [⟨"openai/dall-e-3", "DALL-E 3", "openai", [], []⟩]⟩).1.models.lookup
          "openai/dall-e-3" = some "openai") := by
  refine ⟨?_, ?_, ?_⟩
  · exact (C4_registry_register
      ⟨[("openai", ⟨"openai", [⟨"openai/dall-e-3", "DALL-E 3", "openai", [], []⟩]⟩)],
       [("openai/dall-e-3", "openai")]⟩ ⟨"openai", []⟩).1 (by decide)
  · exact ((C4_registry_register Registry.empty
      ⟨"openai", [⟨"openai/dall-e-3", "DALL-E 3", "openai", [], []⟩]⟩).2 (by decide)).1
  · exact ((C4_registry_register Registry.empty
      ⟨"openai", [⟨"openai/dall-e-3", "DALL-E 3", "openai", [], []⟩]⟩).2 (by decide)).2.2
      ⟨"openai/dall-e-3", "DALL-E 3", "openai", [], []⟩ (by simp)

/-- C5: `GetByModel` first tries the text before the first `/` as a provider
name when the identifier contains `/` and returns that adapter on a hit;
otherwise it falls back to the flattened model index; if both lookups miss it
fails with the `no provider found for model` error, returning no adapter. -/
theorem C5_registry_getByModel (r : Registry) (modelID : String)
    (p : AdapterSpec) (pn : String) :
    (containsSlash modelID = true →
      r.providers.lookup (firstComponent modelID) = some p →
      r.getByModel modelID = .ok (some p))
    ∧ ((containsSlash modelID = false ∨
          r.providers.lookup (firstComponent modelID) = none) →
      r.models.lookup modelID = some pn →
      r.getByModel modelID = .ok (r.providers.lookup pn))
    ∧ ((containsSlash modelID = false ∨
          r.providers.lookup (firstComponent modelID) = none) →
      r.models.lookup modelID = none →
      r.getByModel modelID = .error ("no provider found for model " ++ modelID)) := by
  refine ⟨?_, ?_, ?_⟩
  · intro hc hp
    simp only [Registry.getByModel, hc, if_true, hp]
  · intro hc hm
    rcases hc with hc | hc
    · simp only [Registry.getByModel, hc, Bool.false_eq_true, if_false, hm]
    · by_cases hsl : containsSlash modelID
      · simp only [Registry.getByModel, hsl, if_true, hc, hm]
      · simp only [Bool.not_eq_true] at hsl
        simp only [Registry.getByModel, hsl, Bool.false_eq_true, if_false, hm]
  · intro hc hm
    rcases hc with hc | hc
    · simp only [Registry.getByModel, hc, Bool.false_eq_true, if_false, hm]
    · by_cases hsl : containsSlash modelID
      · simp only [Registry.getByModel, hsl, if_true, hc, hm]
      · simp only [Bool.not_eq_true] at hsl
        simp only [Registry.getByModel, hsl, Bool.false_eq_true, if_false, hm]

/-- Witness for C5 on a one-adapter registry: a `provider/...` identifier
resolves by prefix; an unknown bare identifier fails with the
`no provider found` error. -/
theorem C5_registry_getByModel_witness :
    Registry.getByModel
        ⟨[("openai", ⟨"openai", []⟩)], [("openai/dall-e-3", "openai")]⟩
        "openai/dall-e-3" = .ok (some ⟨"openai", []⟩)
    ∧ Registry.getByModel
        ⟨[("openai", ⟨"openai", []⟩)], [("openai/dall-e-3", "openai")]⟩
        "mystery-model" = .error ("no provider found for model " ++ "mystery-model") := by
  constructor
  · exact (C5_registry_getByModel
      ⟨[("openai", ⟨"openai", []⟩)], [("openai/dall-e-3", "openai")]⟩
      "openai/dall-e-3" ⟨"openai", []⟩ "openai").1 (by decide) (by decide)
  · exact (C5_registry_getByModel
      ⟨[("openai", ⟨"openai", []⟩)], [("openai/dall-e-3", "openai")]⟩
      "mystery-model" ⟨"openai", []⟩ "openai").2.2 (Or.inl (by decide)) (by decide)

/-! ## Data model: `internal/generator/request.go` and `response.go` -/

/-- `generator.Request`.  `Seed *int64` becomes `Option Int`: presence and
absence are distinguished. -/
structure GenRequest where
  model : String
  prompt : String
  size : String
  quality : String
  style : String
  count : Int
  seed : Option Int
  negativePrompt : String
  aspectRatio : String
  steps : Int
  deriving DecidableEq, Repr

/-- `generator.Image`.  Width/Height/per-image Seed are never set by any
adapter in this repository and are omitted. -/
structure GenImage where
  data : List Nat
  url : String
  format : String
  index : Nat
  deriving DecidableEq, Repr

/-- `generator.Response` (timestamps and duration are wall-clock data and are
not modelled). -/
structure GenResponse where
  images : List GenImage
  model : String
  provider : String
  revisedPrompt : String
  deriving DecidableEq, Repr

/-- Adapter-level error: a `fmt.Errorf`-produced message (wrapped causes
flattened into the text) or the context's cancellation error. -/
inductive GenErr
  | msg (s : String)
  | cancelled
  deriving DecidableEq, Repr

/-- Result of one POST exchange as seen by an adapter: `httpClient.Do` error,
`io.ReadAll` error, or a status plus raw body whose JSON decoding (abstracted
into the oracle) yields `decoded`. -/
inductive PostResult (α : Type)
  | doErr (msg : String)
  | readErr
  | ok (status : Nat) (raw : String) (decoded : Option α)
  deriving DecidableEq

instance exceptDecEq {ε α : Type} [DecidableEq ε] [DecidableEq α] :
    DecidableEq (Except ε α) := fun a b => by
  cases a with
  | ok x =>
    cases b with
    | ok y =>
      by_cases h : x = y
      · exact isTrue (by rw [h])
      · exact isFalse (fun hc => by cases hc; exact h rfl)
    | error e => exact isFalse (fun hc => by cases hc)
  | error e =>
    cases b with
    | ok y => exact isFalse (fun hc => by cases hc)
    | error f =>
      by_cases h : e = f
      · exact isTrue (by rw [h])
      · exact isFalse (fun hc => by cases hc; exact h rfl)

/-- The image list of a successful adapter result. -/
def resImages : Except GenErr GenResponse → List GenImage
  | .ok r => r.images
  | .error _ => []

/-- `strings.HasPrefix`, computed on character lists. -/
def strStartsWith (s pfx : String) : Bool :=
  pfx.data.isPrefixOf s.data

/-- `strings.TrimPrefix` guarded by `strings.HasPrefix` (the
`extractModelName` pattern shared by all adapters). -/
def trimPfx (s pfx : String) : String :=
  if strStartsWith s pfx then ⟨s.data.drop pfx.data.length⟩ else s

/-- `strings.Contains` on character lists: `sub` occurs inside `l`. -/
def strContainsSub (sub : List Char) : List Char → Bool
  | [] => sub.isEmpty
  | c :: rest => sub.isPrefixOf (c :: rest) || strContainsSub sub rest

/-- `strings.Contains(s, sub)`. -/
def strContains (s sub : String) : Bool :=
  strContainsSub sub.data s.data

/-! ## OpenAI adapter: `internal/provider/openai.go` -/

def openaiExtractModelName (model : String) : String := trimPfx model "openai/"

/-- `OpenAI.ValidateRequest` (openai.go lines 76-109). -/
def openaiValidate (apiKey : String) (req : GenRequest) : Option String :=
  if apiKey == "" then
    some "OpenAI API key is required (set OPENAI_API_KEY)"
  else if openaiExtractModelName req.model == "dall-e-3" && req.size != "" &&
      !(["1024x1024", "1792x1024", "1024x1792"].contains req.size) then
    some ("invalid size " ++ req.size ++ " for DALL-E 3")
  else if req.quality != "" &&
      !(["standard", "hd", "low", "medium", "high"].contains req.quality) then
    some ("invalid quality " ++ req.quality)
  else if req.style != "" && req.style != "natural" && req.style != "vivid" then
    some ("invalid style " ++ req.style ++ ", valid: natural, vivid")
  else
    none

/-- `openaiImageRequest`. -/
structure OpenAIReq where
  model : String
  prompt : String
  n : Int
  size : String
  quality : String
  style : String
  responseFormat : String
  deriving DecidableEq, Repr

/-- One entry of `openaiImageResponse.Data`. -/
structure OpenAIDataItem where
  url : String
  b64JSON : String
  revisedPrompt : String
  deriving DecidableEq, Repr

/-- `openaiImageResponse` (the error envelope reduced to its message). -/
structure OpenAIResp where
  data : List OpenAIDataItem
  errorMessage : Option String
  deriving DecidableEq, Repr

/-- Network events of `OpenAI.Generate`. -/
inductive OpenAIEv
  | post (r : OpenAIReq)
  deriving DecidableEq, Repr

/-- The image-building loop of `OpenAI.Generate` (openai.go lines 202-218):
decode failure aborts; an empty `b64_json` leaves the data empty. -/
def openaiBuildImages (decode : String → Option (List Nat)) :
    List OpenAIDataItem → Nat → Except String (List GenImage)
  | [], _ => .ok []
  | item :: rest, i =>
    if item.b64JSON != "" then
      match decode item.b64JSON with
      | none => .error "failed to decode image"
      | some d =>
        (openaiBuildImages decode rest (i + 1)).map
          (fun imgs => ⟨d, item.url, "png", i⟩ :: imgs)
    else
      (openaiBuildImages decode rest (i + 1)).map
        (fun imgs => ⟨[], item.url, "png", i⟩ :: imgs)

/-- `OpenAI.Generate` (openai.go lines 135-233).  `decode` abstracts
`base64.StdEncoding.DecodeString`; `net` abstracts the POST to
`/images/generations` through the retrying transport. -/
def openaiGenerate (apiKey : String) (decode : String → Option (List Nat))
    (net : OpenAIReq → PostResult OpenAIResp) (req : GenRequest) :
    Except GenErr GenResponse × List OpenAIEv :=
  match openaiValidate apiKey req with
  | some e => (.error (.msg e), [])
  | none =>
    let count : Int := if req.count ≤ 0 then 1 else req.count
    let model := openaiExtractModelName req.model
    let apiReq : OpenAIReq :=
      ⟨model, req.prompt, count, req.size, req.quality, req.style, "b64_json"⟩
    match net apiReq with
    | .doErr m => (.error (.msg m), [.post apiReq])
    | .readErr => (.error (.msg "failed to read response"), [.post apiReq])
    | .ok status _ decoded =>
      if status != 200 then
        match decoded with
        | some apiResp =>
          match apiResp.errorMessage with
          | some m => (.error (.msg ("OpenAI API error: " ++ m)), [.post apiReq])
          | none =>
            (.error (.msg ("OpenAI API error: status " ++ toString status)), [.post apiReq])
        | none =>
          (.error (.msg ("OpenAI API error: status " ++ toString status)), [.post apiReq])
      else
        match decoded with
        | none => (.error (.msg "failed to decode response"), [.post apiReq])
        | some apiResp =>
          match openaiBuildImages decode apiResp.data 0 with
          | .error e => (.error (.msg e), [.post apiReq])
          | .ok images =>
            let revisedPrompt :=
              match apiResp.data with
              | [] => ""
              | d :: _ => d.revisedPrompt
            (.ok ⟨images, req.model, "openai", revisedPrompt⟩, [.post apiReq])

/-! ## Google adapter: `src/unnamed/part_002` -/

def googleExtractModelName (model : String) : String := trimPfx model "google/"

/-- `Google.ValidateRequest`. -/
def googleValidate (apiKey : String) (req : GenRequest) : Option String :=
  if apiKey == "" then
    some "Google API key is required (set GOOGLE_API_KEY or GEMINI_API_KEY)"
  else
    none

/-- `geminiRequest`, reduced to the fields the adapter fills. -/
structure GoogleReq where
  model : String
  prompt : String
  responseModalities : List String
  deriving DecidableEq, Repr

structure GeminiInline where
  mimeType : String
  data : String
  deriving DecidableEq, Repr

structure GeminiPart where
  text : String
  inlineData : Option GeminiInline
  deriving DecidableEq, Repr

/-- `geminiResponse`: per-candidate part lists, plus the error envelope's
message. -/
structure GeminiResp where
  candidates : List (List GeminiPart)
  errorMessage : Option String
  deriving DecidableEq, Repr

inductive GoogleEv
  | post (r : GoogleReq)
  deriving DecidableEq, Repr

/-- The parts loop of `Google.Generate`: a decode failure `continue`s. -/
def googleBuildImages (decode : String → Option (List Nat)) :
    List GeminiPart → Nat → List GenImage
  | [], _ => []
  | part :: rest, i =>
    match part.inlineData with
    | none => googleBuildImages decode rest (i + 1)
    | some blob =>
      if blob.data != "" then
        match decode blob.data with
        | none => googleBuildImages decode rest (i + 1)
        | some d =>
          let format :=
            if strContains blob.mimeType "jpeg" then "jpeg"
            else if strContains blob.mimeType "webp" then "webp"
            else "png"
          ⟨d, "", format, i⟩ :: googleBuildImages decode rest (i + 1)
      else
        googleBuildImages decode rest (i + 1)

/-- `Google.Generate`. -/
def googleGenerate (apiKey : String) (decode : String → Option (List Nat))
    (net : GoogleReq → PostResult GeminiResp) (req : GenRequest) :
    Except GenErr GenResponse × List GoogleEv :=
  match googleValidate apiKey req with
  | some e => (.error (.msg e), [])
  | none =>
    let model := googleExtractModelName req.model
    let apiReq : GoogleReq := ⟨model, req.prompt, ["TEXT", "IMAGE"]⟩
    match net apiReq with
    | .doErr m => (.error (.msg m), [.post apiReq])
    | .readErr => (.error (.msg "failed to read response"), [.post apiReq])
    | .ok status _ decoded =>
      match decoded with
      | none => (.error (.msg "failed to decode response"), [.post apiReq])
      | some apiResp =>
        match apiResp.errorMessage with
        | some m => (.error (.msg ("Gemini API error: " ++ m)), [.post apiReq])
        | none =>
          if status != 200 then
            (.error (.msg ("Gemini API error: status " ++ toString status)), [.post apiReq])
          else
            let images :=
              match apiResp.candidates with
              | [] => []
              | parts :: _ => googleBuildImages decode parts 0
            if images.isEmpty then
              (.error (.msg "no images generated"), [.post apiReq])
            else
              (.ok ⟨images, req.model, "google", ""⟩, [.post apiReq])

/-! ## Stability adapter: `internal/provider/stability.go` -/

def stabilityExtractModelName (model : String) : String := trimPfx model "stability/"

/-- `Stability.ValidateRequest`. -/
def stabilityValidate (apiKey : String) (req : GenRequest) : Option String :=
  if apiKey == "" then
    some "Stability API key is required (set STABILITY_API_KEY)"
  else
    none

/-- `Stability.getEndpoint`. -/
def stabilityGetEndpoint (model : String) : String :=
  if model == "stable-image-ultra" then "/v2beta/stable-image/generate/ultra"
  else if model == "sd3-large" || model == "sd3-large-turbo" then
    "/v2beta/stable-image/generate/sd3"
  else "/v2beta/stable-image/generate/core"

/-- The multipart form body written by `Stability.Generate`
(stability.go lines 88-107), as the ordered list of `WriteField` calls. -/
def stabilityBody (req : GenRequest) : List (String × String) :=
  [("prompt", req.prompt)]
  ++ (if req.negativePrompt != "" then [("negative_prompt", req.negativePrompt)] else [])
  ++ (if req.aspectRatio != "" then [("aspect_ratio", req.aspectRatio)] else [])
  ++ (match req.seed with
      | some s => [("seed", toString s)]
      | none => [])
  ++ [("output_format", "png")]

/-- Result of the Stability POST: on success the whole body IS the image. -/
inductive StabPostResult
  | doErr (msg : String)
  | readErr
  | ok (status : Nat) (contentType : String) (body : List Nat) (errMessage : Option String)

inductive StabEv
  | post (endpoint : String) (body : List (String × String))
  deriving DecidableEq, Repr

/-- `Stability.Generate` (stability.go lines 78-169).  `errMessage` models the
best-effort JSON error-envelope parse of a non-200 body (`some` when a
non-empty `message` was parsed). -/
def stabilityGenerate (apiKey : String)
    (net : String → List (String × String) → StabPostResult) (req : GenRequest) :
    Except GenErr GenResponse × List StabEv :=
  match stabilityValidate apiKey req with
  | some e => (.error (.msg e), [])
  | none =>
    let model := stabilityExtractModelName req.model
    let endpoint := stabilityGetEndpoint model
    let body := stabilityBody req
    match net endpoint body with
    | .doErr m => (.error (.msg m), [.post endpoint body])
    | .readErr => (.error (.msg "failed to read response"), [.post endpoint body])
    | .ok status contentType respBody errMessage =>
      if status != 200 then
        match errMessage with
        | some m => (.error (.msg ("Stability API error: " ++ m)), [.post endpoint body])
        | none =>
          (.error (.msg ("Stability API error: status " ++ toString status)),
           [.post endpoint body])
      else
        let format :=
          if strContains contentType "jpeg" then "jpeg"
          else if strContains contentType "webp" then "webp"
          else "png"
        (.ok ⟨[⟨respBody, "", format, 0⟩], req.model, "stability", ""⟩,
         [.post endpoint body])

/-! ## Replicate adapter: `src/unnamed/part_004` -/

def replicateExtractModelName (model : String) : String := trimPfx model "replicate/"

/-- `Replicate.getModelRef`. -/
def replicateGetModelRef (model : String) : String :=
  if model == "flux-1.1-pro" then "black-forest-labs/flux-1.1-pro"
  else if model == "flux-schnell" then "black-forest-labs/flux-schnell"
  else if model == "sdxl" then "stability-ai/sdxl"
  else model

/-- `Replicate.ValidateRequest`. -/
def replicateValidate (apiKey : String) (req : GenRequest) : Option String :=
  if apiKey == "" then
    some "Replicate API token is required (set REPLICATE_API_TOKEN)"
  else
    none

/-- A JSON value placed in the `input` map (only strings and integers are
used by this adapter). -/
inductive RJson
  | str (s : String)
  | int (n : Int)
  deriving DecidableEq, Repr

/-- The `input` map built by `Replicate.Generate` (part_004 lines 100-118),
as the ordered list of insertions (all keys are distinct). -/
def replicateInput (req : GenRequest) : List (String × RJson) :=
  [("prompt", RJson.str req.prompt)]
  ++ (if req.negativePrompt != "" then [("negative_prompt", RJson.str req.negativePrompt)] else [])
  ++ (if req.aspectRatio != "" then [("aspect_ratio", RJson.str req.aspectRatio)] else [])
  ++ (match req.seed with
      | some s => [("seed", RJson.int s)]
      | none => [])
  ++ (if req.steps > 0 then [("num_inference_steps", RJson.int req.steps)] else [])

/-- `replicateRequest`. -/
structure ReplicateReq where
  version : String
  model : String
  input : List (String × RJson)
  deriving DecidableEq, Repr

/-- `prediction.Output`: `any` that is a string, a list (whose non-string
entries are skipped), or something else. -/
inductive RepOutputItem
  | str (s : String)
  | nonstring
  deriving DecidableEq, Repr

inductive RepOutput
  | str (s : String)
  | arr (items : List RepOutputItem)
  | other
  deriving DecidableEq, Repr

/-- `replicatePrediction` (id omitted; `urlGet` is `URLs.Get`). -/
structure Prediction where
  status : String
  output : RepOutput
  error : String
  urlGet : String
  deriving DecidableEq, Repr

/-- URL extraction from `prediction.Output` (part_004 lines 183-193). -/
def replicateExtractURLs : RepOutput → List String
  | .str s => [s]
  | .arr items => items.filterMap (fun it =>
      match it with
      | .str s => some s
      | .nonstring => none)
  | .other => []

/-- Observable events of `Replicate.Generate`. -/
inductive RepEv
  | post (r : ReplicateReq)
  | wait (delay : Nat)
  | fetch (url : String)
  | download (url : String)
  deriving DecidableEq, Repr

/-- Oracles for `Replicate.Generate`: the initial POST, the `k`-th
`getPrediction` call (keyed also by the URL it fetches), and the image
download. -/
structure RepNet where
  post : ReplicateReq → PostResult Prediction
  poll : Nat → String → Except String Prediction
  download : String → Option (List Nat × String)

/-- The polling loop of `Replicate.Generate` (part_004 lines 164-176): while
the status is neither `succeeded` nor `failed`, sleep 2 cancellable time
units, then re-fetch the prediction from its own `URLs.Get`.  `fuel` bounds
the number of polls in the model (the Go loop is unbounded). -/
def replicatePoll (poll : Nat → String → Except String Prediction)
    (cancelAt : Option Nat) :
    Nat → Nat → Nat → Prediction → Except GenErr Prediction × List RepEv
  | fuel, k, elapsed, p =>
    if p.status == "succeeded" || p.status == "failed" then
      (.ok p, [])
    else
      match fuel with
      | 0 => (.error (.msg "poll fuel exhausted"), [])
      | fuel' + 1 =>
        if cancelsDuring cancelAt elapsed 2 then
          (.error .cancelled, [])
        else
          match poll k p.urlGet with
          | .error m => (.error (.msg m), [.wait 2, .fetch p.urlGet])
          | .ok p' =>
            let r := replicatePoll poll cancelAt fuel' (k + 1) (elapsed + 2) p'
            (r.1, .wait 2 :: .fetch p.urlGet :: r.2)

/-- The download loop of `Replicate.Generate` (part_004 lines 199-211):
a download failure aborts the whole call. -/
def replicateDownloadAll (download : String → Option (List Nat × String)) :
    List String → Nat → Except GenErr (List GenImage) × List RepEv
  | [], _ => (.ok [], [])
  | url :: rest, i =>
    match download url with
    | none => (.error (.msg "failed to download image"), [.download url])
    | some (d, fmt) =>
      let r := replicateDownloadAll download rest (i + 1)
      (r.1.map (fun imgs => ⟨d, url, fmt, i⟩ :: imgs), .download url :: r.2)

/-- The `replicateRequest` value POSTed by `Replicate.Generate`
(part_004 lines 97-123): empty version, mapped model reference, input map. -/
def replicateBuildReq (req : GenRequest) : ReplicateReq :=
  ⟨"", replicateGetModelRef (replicateExtractModelName req.model), replicateInput req⟩

/-- `Replicate.Generate` (part_004 lines 90-220). -/
def replicateGenerate (apiKey : String) (net : RepNet) (cancelAt : Option Nat)
    (fuel : Nat) (req : GenRequest) : Except GenErr GenResponse × List RepEv :=
  match replicateValidate apiKey req with
  | some e => (.error (.msg e), [])
  | none =>
    let apiReq : ReplicateReq := replicateBuildReq req
    match net.post apiReq with
    | .doErr m => (.error (.msg m), [.post apiReq])
    | .readErr => (.error (.msg "failed to read response"), [.post apiReq])
    | .ok status raw decoded =>
      if status != 200 && status != 201 then
        (.error (.msg ("Replicate API error: status " ++ toString status ++
          ", body: " ++ raw)), [.post apiReq])
      else
        match decoded with
        | none => (.error (.msg "failed to decode response"), [.post apiReq])
        | some prediction =>
          let pr := replicatePoll net.poll cancelAt fuel 0 0 prediction
          match pr.1 with
          | .error e => (.error e, .post apiReq :: pr.2)
          | .ok pfinal =>
            if pfinal.status == "failed" then
              (.error (.msg ("Replicate generation failed: " ++ pfinal.error)),
               .post apiReq :: pr.2)
            else
              let urls := replicateExtractURLs pfinal.output
              if urls.isEmpty then
                (.error (.msg "no images in response"), .post apiReq :: pr.2)
              else
                let dr := replicateDownloadAll net.download urls 0
                match dr.1 with
                | .error e => (.error e, .post apiReq :: (pr.2 ++ dr.2))
                | .ok images =>
                  (.ok ⟨images, req.model, "replicate", ""⟩,
                   .post apiReq :: (pr.2 ++ dr.2))

/-! ## OpenRouter adapter: `internal/provider/registry.go` lines 218-364 -/

def orExtractModelName (model : String) : String := trimPfx model "openrouter/"

/-- `OpenRouter.ValidateRequest`. -/
def openrouterValidate (apiKey : String) (req : GenRequest) : Option String :=
  if apiKey == "" then
    some "OpenRouter API key is required (set OPENROUTER_API_KEY)"
  else
    none

/-- `OpenRouter.mapImageSize`. -/
def orMapImageSize (size : String) : String :=
  if size == "1024x1024" || size == "1K" then "1K"
  else if size == "2048x2048" || size == "2K" then "2K"
  else if size == "4096x4096" || size == "4K" then "4K"
  else ""

structure ORMsgOut where
  role : String
  content : String
  deriving DecidableEq, Repr

structure ORImageConfig where
  aspectRatio : String
  imageSize : String
  deriving DecidableEq, Repr

/-- `openrouterRequest`. -/
structure ORReq where
  model : String
  messages : List ORMsgOut
  modalities : List String
  imageConfig : Option ORImageConfig
  deriving DecidableEq, Repr

/-- One entry of the dedicated `message.images` list: its `image_url.url`. -/
structure ORImageEntry where
  url : String
  deriving DecidableEq, Repr

/-- One entry of the `message.content` array.  `image u` stands for a map
with `type == "image"`; `u` is `some url` when an `image` map with a string
`url` is present, `none` when that inner shape is missing.  `notImage`
covers every other entry. -/
inductive ORContentItem
  | image (u : Option String)
  | notImage
  deriving DecidableEq, Repr

/-- `message.Content` (`any` in Go): an array, or anything else (string). -/
inductive ORContent
  | arr (items : List ORContentItem)
  | nonArray
  deriving DecidableEq, Repr

structure ORMessage where
  images : List ORImageEntry
  content : ORContent
  deriving DecidableEq, Repr

structure ORChoice where
  message : ORMessage
  deriving DecidableEq, Repr

/-- `openrouterResponse` reduced to what `Generate` reads. -/
structure ORResp where
  choices : List ORChoice
  errorMessage : Option String
  deriving DecidableEq, Repr

inductive OREv
  | post (r : ORReq)
  | download (url : String)
  deriving DecidableEq, Repr

/-- Oracles for `OpenRouter.Generate`: the chat-completions POST, the local
data-URL parse (`parseDataURL`) and the remote download (`downloadImage`),
each returning decoded bytes and a format tag, or `none` on failure. -/
structure ORNet where
  post : ORReq → PostResult ORResp
  parseURL : String → Option (List Nat × String)
  download : String → Option (List Nat × String)

/-- Case A of the response scan (registry.go lines 291-315): the dedicated
`message.images` list.  Entries with an empty URL are skipped (but still
consume their loop index); any parse/download failure aborts the call with
`failed to get image`. -/
def orImagesA (net : ORNet) :
    List ORImageEntry → Nat → Except String (List GenImage) × List OREv
  | [], _ => (.ok [], [])
  | e :: rest, i =>
    if e.url != "" then
      if strStartsWith e.url "data:image/" then
        match net.parseURL e.url with
        | none => (.error "failed to get image", [])
        | some (d, fmt) =>
          let r := orImagesA net rest (i + 1)
          ((r.1.map (fun imgs => ⟨d, "", fmt, i⟩ :: imgs)), r.2)
      else
        match net.download e.url with
        | none => (.error "failed to get image", [.download e.url])
        | some (d, fmt) =>
          let r := orImagesA net rest (i + 1)
          ((r.1.map (fun imgs => ⟨d, "", fmt, i⟩ :: imgs)), .download e.url :: r.2)
    else
      orImagesA net rest (i + 1)

/-- Case B of the response scan (registry.go lines 317-350): the content
array.  Parse/download failures are skipped; a downloaded image records its
source URL, a data-URL image does not. -/
def orImagesB (net : ORNet) :
    List ORContentItem → Nat → List GenImage × List OREv
  | [], _ => ([], [])
  | item :: rest, i =>
    match item with
    | .notImage => orImagesB net rest (i + 1)
    | .image none => orImagesB net rest (i + 1)
    | .image (some url) =>
      if strStartsWith url "data:image/" then
        match net.parseURL url with
        | none => orImagesB net rest (i + 1)
        | some (d, fmt) =>
          let r := orImagesB net rest (i + 1)
          (⟨d, "", fmt, i⟩ :: r.1, r.2)
      else
        match net.download url with
        | none =>
          let r := orImagesB net rest (i + 1)
          (r.1, .download url :: r.2)
        | some (d, fmt) =>
          let r := orImagesB net rest (i + 1)
          (⟨d, url, fmt, i⟩ :: r.1, .download url :: r.2)

/-- The `openrouterRequest` value POSTed by `OpenRouter.Generate`
(registry.go lines 225-240): one user message with the prompt, both
modalities, and an image-config block when an aspect ratio or size was
requested. -/
def orBuildReq (req : GenRequest) : ORReq :=
  { model := orExtractModelName req.model
    messages := [⟨"user", req.prompt⟩]
    modalities := ["image", "text"]
    imageConfig :=
      if req.aspectRatio != "" || req.size != "" then
        some ⟨req.aspectRatio, orMapImageSize req.size⟩
      else
        none }

/-- `OpenRouter.Generate` (registry.go lines 218-364). -/
def openrouterGenerate (apiKey : String) (net : ORNet) (req : GenRequest) :
    Except GenErr GenResponse × List OREv :=
  match openrouterValidate apiKey req with
  | some e => (.error (.msg e), [])
  | none =>
    let apiReq : ORReq := orBuildReq req
    match net.post apiReq with
    | .doErr m => (.error (.msg m), [.post apiReq])
    | .readErr => (.error (.msg "failed to read response"), [.post apiReq])
    | .ok status raw decoded =>
      if status != 200 then
        match decoded with
        | some apiResp =>
          match apiResp.errorMessage with
          | some m => (.error (.msg ("OpenRouter API error: " ++ m)), [.post apiReq])
          | none =>
            (.error (.msg ("OpenRouter API error: status " ++ toString status ++
              ", body: " ++ raw)), [.post apiReq])
        | none =>
          (.error (.msg ("OpenRouter API error: status " ++ toString status ++
            ", body: " ++ raw)), [.post apiReq])
      else
        match decoded with
        | none => (.error (.msg "failed to decode response"), [.post apiReq])
        | some apiResp =>
          match apiResp.choices with
          | [] => (.error (.msg "no images in response"), [.post apiReq])
          | choice :: _ =>
            let msg := choice.message
            match orImagesA net msg.images 0 with
            | (.error e, trA) => (.error (.msg e), .post apiReq :: trA)
            | (.ok imgsA, trA) =>
              let contentItems :=
                match msg.content with
                | .arr items => items
                | .nonArray => []
              let rb := orImagesB net contentItems 0
              let images := imgsA ++ rb.1
              if images.isEmpty then
                (.error (.msg "no images in response"), .post apiReq :: (trA ++ rb.2))
              else
                (.ok ⟨images, req.model, "openrouter", ""⟩,
                 .post apiReq :: (trA ++ rb.2))

/-! ## C3: every `Generate` validates first and fails fast -/

/-- C3: for every adapter, when `ValidateRequest` fails, `Generate` returns
the same error with an empty network trace (no HTTP exchange); and a missing
API credential is always caught by `ValidateRequest`. -/
theorem C3_generate_validates_first (apiKey e : String) (req : GenRequest)
    (decode : String → Option (List Nat)) (netA : OpenAIReq → PostResult OpenAIResp)
    (netG : GoogleReq → PostResult GeminiResp)
    (netS : String → List (String × String) → StabPostResult)
    (netR : RepNet) (cancelAt : Option Nat) (fuel : Nat) (netO : ORNet) :
    (openaiValidate apiKey req = some e →
      openaiGenerate apiKey decode netA req = (.error (.msg e), []))
    ∧ (googleValidate apiKey req = some e →
      googleGenerate apiKey decode netG req = (.error (.msg e), []))
    ∧ (stabilityValidate apiKey req = some e →
      stabilityGenerate apiKey netS req = (.error (.msg e), []))
    ∧ (replicateValidate apiKey req = some e →
      replicateGenerate apiKey netR cancelAt fuel req = (.error (.msg e), []))
    ∧ (openrouterValidate apiKey req = some e →
      openrouterGenerate apiKey netO req = (.error (.msg e), []))
    ∧ (apiKey = "" →
      openaiValidate apiKey req = some "OpenAI API key is required (set OPENAI_API_KEY)"
      ∧ googleValidate apiKey req =
          some "Google API key is required (set GOOGLE_API_KEY or GEMINI_API_KEY)"
      ∧ stabilityValidate apiKey req =
          some "Stability API key is required (set STABILITY_API_KEY)"
      ∧ replicateValidate apiKey req =
          some "Replicate API token is required (set REPLICATE_API_TOKEN)"
      ∧ openrouterValidate apiKey req =
          some "OpenRouter API key is required (set OPENROUTER_API_KEY)") := by
  refine ⟨?_, ?_, ?_, ?_, ?_, ?_⟩
  · intro h; simp [openaiGenerate, h]
  · intro h; simp [googleGenerate, h]
  · intro h; simp [stabilityGenerate, h]
  · intro h; simp [replicateGenerate, h]
  · intro h; simp [openrouterGenerate, h]
  · intro h
    subst h
    refine ⟨?_, ?_, ?_, ?_, ?_⟩ <;> rfl

/-- Witness for C3: with an empty API key, each adapter's `Generate` returns
the credential error produced by its `ValidateRequest`, with no network
event. -/
theorem C3_generate_validates_first_witness :
    openaiGenerate "" (fun _ => none) (fun _ => .readErr)
        ⟨"openai/dall-e-3", "a cat", "", "", "", 1, none, "", "", 0⟩ =
      (.error (.msg "OpenAI API key is required (set OPENAI_API_KEY)"), [])
    ∧ googleGenerate "" (fun _ => none) (fun _ => .readErr)
        ⟨"google/imagen-3.0-generate-002", "a cat", "", "", "", 1, none, "", "", 0⟩ =
      (.error (.msg "Google API key is required (set GOOGLE_API_KEY or GEMINI_API_KEY)"), [])
    ∧ stabilityGenerate "" (fun _ _ => .readErr)
        ⟨"stability/sd3-large", "a cat", "", "", "", 1, none, "", "", 0⟩ =
      (.error (.msg "Stability API key is required (set STABILITY_API_KEY)"), [])
    ∧ replicateGenerate "" ⟨fun _ => .readErr, fun _ _ => .error "down", fun _ => none⟩
        none 3 ⟨"replicate/sdxl", "a cat", "", "", "", 1, none, "", "", 0⟩ =
      (.error (.msg "Replicate API token is required (set REPLICATE_API_TOKEN)"), [])
    ∧ openrouterGenerate ""
        ⟨fun _ => .readErr, fun _ => none, fun _ => none⟩
        ⟨"openrouter/openai/gpt-5-image", "a cat", "", "", "", 1, none, "", "", 0⟩ =
      (.error (.msg "OpenRouter API key is required (set OPENROUTER_API_KEY)"), []) := by
  refine ⟨?_, ?_, ?_, ?_, ?_⟩
  · exact (C3_generate_validates_first "" _ _ (fun _ => none) (fun _ => .readErr)
      (fun _ => .readErr) (fun _ _ => .readErr)
      ⟨fun _ => .readErr, fun _ _ => .error "down", fun _ => none⟩ none 3
      ⟨fun _ => .readErr, fun _ => none, fun _ => none⟩).1 rfl
  · exact (C3_generate_validates_first "" _ _ (fun _ => none) (fun _ => .readErr)
      (fun _ => .readErr) (fun _ _ => .readErr)
      ⟨fun _ => .readErr, fun _ _ => .error "down", fun _ => none⟩ none 3
      ⟨fun _ => .readErr, fun _ => none, fun _ => none⟩).2.1 rfl
  · exact (C3_generate_validates_first "" _ _ (fun _ => none) (fun _ => .readErr)
      (fun _ => .readErr) (fun _ _ => .readErr)
      ⟨fun _ => .readErr, fun _ _ => .error "down", fun _ => none⟩ none 3
      ⟨fun _ => .readErr, fun _ => none, fun _ => none⟩).2.2.1 rfl
  · exact (C3_generate_validates_first "" _ _ (fun _ => none) (fun _ => .readErr)
      (fun _ => .readErr) (fun _ _ => .readErr)
      ⟨fun _ => .readErr, fun _ _ => .error "down", fun _ => none⟩ none 3
      ⟨fun _ => .readErr, fun _ => none, fun _ => none⟩).2.2.2.1 rfl
  · exact (C3_generate_validates_first "" _ _ (fun _ => none) (fun _ => .readErr)
      (fun _ => .readErr) (fun _ _ => .readErr)
      ⟨fun _ => .readErr, fun _ _ => .error "down", fun _ => none⟩ none 3
      ⟨fun _ => .readErr, fun _ => none, fun _ => none⟩).2.2.2.2.1 rfl

/-! ## C9: seed presence round-trips into the backend request -/

lemma stabilityBody_seed_mem (req : GenRequest) (s : Int) (h : req.seed = some s) :
    ("seed", toString s) ∈ stabilityBody req := by
  simp [stabilityBody, h, List.mem_append]

lemma stabilityBody_seed_not_mem (req : GenRequest) (h : req.seed = none) (v : String) :
    ("seed", v) ∉ stabilityBody req := by
  intro hmem
  simp only [stabilityBody, h] at hmem
  split_ifs at hmem <;> simp_all

lemma replicateInput_seed_mem (req : GenRequest) (s : Int) (h : req.seed = some s) :
    ("seed", RJson.int s) ∈ replicateInput req := by
  simp [replicateInput, h, List.mem_append]

lemma replicateInput_seed_not_mem (req : GenRequest) (h : req.seed = none) (j : RJson) :
    ("seed", j) ∉ replicateInput req := by
  intro hmem
  simp only [replicateInput, h] at hmem
  split_ifs at hmem <;> simp_all

/-- C9: adapters that forward a seed (Stability, Replicate) encode it exactly
when the request's optional seed is present — including an explicit value 0 —
and omit the field when it is absent, so seed-0 and no-seed requests produce
distinguishable backend requests. -/
theorem C9_seed_encoding (req : GenRequest) (s : Int) :
    (req.seed = some s →
      ("seed", toString s) ∈ stabilityBody req
      ∧ ("seed", RJson.int s) ∈ replicateInput req)
    ∧ (req.seed = none →
      (∀ v, ("seed", v) ∉ stabilityBody req)
      ∧ (∀ j, ("seed", j) ∉ replicateInput req))
    ∧ stabilityBody {req with seed := some 0} ≠ stabilityBody {req with seed := none}
    ∧ replicateInput {req with seed := some 0} ≠ replicateInput {req with seed := none} := by
  refine ⟨?_, ?_, ?_, ?_⟩
  · intro h
    exact ⟨stabilityBody_seed_mem req s h, replicateInput_seed_mem req s h⟩
  · intro h
    exact ⟨stabilityBody_seed_not_mem req h, replicateInput_seed_not_mem req h⟩
  · intro heq
    have h1 := stabilityBody_seed_mem {req with seed := some 0} 0 rfl
    rw [heq] at h1
    exact stabilityBody_seed_not_mem {req with seed := none} rfl _ h1
  · intro heq
    have h1 := replicateInput_seed_mem {req with seed := some 0} 0 rfl
    rw [heq] at h1
    exact replicateInput_seed_not_mem {req with seed := none} rfl _ h1

/-- Witness for C9 on a concrete request carrying seed 0. -/
theorem C9_seed_encoding_witness :
    ("seed", toString (0 : Int)) ∈
      stabilityBody ⟨"stability/sd3-large", "x", "", "", "", 1, some 0, "", "", 0⟩
    ∧ ("seed", RJson.int 0) ∈
      replicateInput ⟨"replicate/sdxl", "x", "", "", "", 1, some 0, "", "", 0⟩
    ∧ stabilityBody ⟨"stability/sd3-large", "x", "", "", "", 1, some 0, "", "", 0⟩ ≠
      stabilityBody ⟨"stability/sd3-large", "x", "", "", "", 1, none, "", "", 0⟩
    ∧ replicateInput ⟨"replicate/sdxl", "x", "", "", "", 1, some 0, "", "", 0⟩ ≠
      replicateInput ⟨"replicate/sdxl", "x", "", "", "", 1, none, "", "", 0⟩ := by
  refine ⟨?_, ?_, ?_, ?_⟩
  · exact ((C9_seed_encoding
      ⟨"stability/sd3-large", "x", "", "", "", 1, some 0, "", "", 0⟩ 0).1 rfl).1
  · exact ((C9_seed_encoding
      ⟨"replicate/sdxl", "x", "", "", "", 1, some 0, "", "", 0⟩ 0).1 rfl).2
  · exact (C9_seed_encoding
      ⟨"stability/sd3-large", "x", "", "", "", 1, some 0, "", "", 0⟩ 0).2.2.1
  · exact (C9_seed_encoding
      ⟨"replicate/sdxl", "x", "", "", "", 1, some 0, "", "", 0⟩ 0).2.2.2

/-! ## C6/C7: OpenRouter response-shape handling -/

/-- The per-image fetch used by both scan loops: local data-URL parse for
`data:image/` URLs, transport GET otherwise. -/
def orFetch (net : ORNet) (url : String) : Option (List Nat × String) :=
  if strStartsWith url "data:image/" then net.parseURL url else net.download url

lemma orImagesA_single (net : ORNet) (u : String) (d : List Nat) (f : String)
    (hu : u ≠ "") (hf : orFetch net u = some (d, f)) :
    ∃ tr, orImagesA net [⟨u⟩] 0 = (.ok [⟨d, "", f, 0⟩], tr) := by
  have hu' : (u != "") = true := by simp [hu]
  rw [orFetch] at hf
  by_cases hs : strStartsWith u "data:image/"
  · rw [if_pos hs] at hf
    refine ⟨[], ?_⟩
    simp [orImagesA, hu', hs, hf, Except.map]
  · rw [if_neg hs] at hf
    refine ⟨[.download u], ?_⟩
    simp [orImagesA, hu', hs, hf, Except.map]

lemma orImagesB_single (net : ORNet) (u : String) (d : List Nat) (f : String)
    (hf : orFetch net u = some (d, f)) :
    ∃ u' tr, orImagesB net [.image (some u)] 0 = ([⟨d, u', f, 0⟩], tr) := by
  rw [orFetch] at hf
  by_cases hs : strStartsWith u "data:image/"
  · rw [if_pos hs] at hf
    exact ⟨"", [], by simp [orImagesB, hs, hf]⟩
  · rw [if_neg hs] at hf
    exact ⟨u, [.download u], by simp [orImagesB, hs, hf]⟩

lemma openrouterValidate_none (apiKey : String) (req : GenRequest)
    (h : apiKey ≠ "") : openrouterValidate apiKey req = none := by
  simp [openrouterValidate, h]

/-- C6: for the OpenRouter adapter, a 200 response carrying one image in the
dedicated per-message image list and one `type == "image"` entry in the
content array yields exactly two images, dedicated-list image first; and a
200 response in which neither shape yields any image fails with
`no images in response`. -/
theorem C6_openrouter_two_shapes (apiKey raw : String) (net : ORNet)
    (req : GenRequest) (u1 u2 : String) (d1 d2 : List Nat) (f1 f2 : String)
    (em : Option String) :
    (apiKey ≠ "" →
      net.post (orBuildReq req) =
        .ok 200 raw (some ⟨[⟨⟨[⟨u1⟩], .arr [.image (some u2)]⟩⟩], em⟩) →
      u1 ≠ "" →
      orFetch net u1 = some (d1, f1) →
      orFetch net u2 = some (d2, f2) →
      (resImages (openrouterGenerate apiKey net req).1).map (fun im => im.data) =
        [d1, d2])
    ∧ (apiKey ≠ "" →
      net.post (orBuildReq req) = .ok 200 raw (some ⟨[⟨⟨[], .nonArray⟩⟩], em⟩) →
      (openrouterGenerate apiKey net req).1 = .error (.msg "no images in response")) := by
  constructor
  · intro hk hpost hu hf1 hf2
    obtain ⟨trA, hA⟩ := orImagesA_single net u1 d1 f1 hu hf1
    obtain ⟨u', trB, hB⟩ := orImagesB_single net u2 d2 f2 hf2
    simp only [openrouterGenerate, openrouterValidate_none apiKey req hk, hpost,
      hA, hB, resImages]
    simp
  · intro hk hpost
    have hA : orImagesA net [] 0 = (.ok [], []) := by simp [orImagesA]
    have hB : orImagesB net [] 0 = ([], []) := by simp [orImagesB]
    simp only [openrouterGenerate, openrouterValidate_none apiKey req hk, hpost,
      hA, hB]
    simp

/-- Witness for C6: a concrete 200 response with one downloadable image in
the dedicated list and one data-URL image in the content array yields the two
data payloads in dedicated-first order; a concrete 200 response with neither
shape fails hard. -/
theorem C6_openrouter_two_shapes_witness :
    (resImages (openrouterGenerate "k"
      ⟨fun _ => .ok 200 ""
          (some ⟨[⟨⟨[⟨"http://a"⟩], .arr [.image (some "data:image/png;base64,AA")]⟩⟩],
            none⟩),
       fun u => if u == "data:image/png;base64,AA" then some ([7], "png") else none,
       fun u => if u == "http://a" then some ([9], "jpeg") else none⟩
      ⟨"openrouter/openai/gpt-5-image", "x", "", "", "", 1, none, "", "", 0⟩).1).map
        (fun im => im.data) = [[9], [7]]
    ∧ (openrouterGenerate "k"
      ⟨fun _ => .ok 200 "" (some ⟨[⟨⟨[], .nonArray⟩⟩], none⟩),
       fun _ => none, fun _ => none⟩
      ⟨"openrouter/openai/gpt-5-image", "x", "", "", "", 1, none, "", "", 0⟩).1 =
        .error (.msg "no images in response") := by
  constructor
  · exact (C6_openrouter_two_shapes "k" ""
      ⟨fun _ => .ok 200 ""
          (some ⟨[⟨⟨[⟨"http://a"⟩], .arr [.image (some "data:image/png;base64,AA")]⟩⟩],
            none⟩),
       fun u => if u == "data:image/png;base64,AA" then some ([7], "png") else none,
       fun u => if u == "http://a" then some ([9], "jpeg") else none⟩
      ⟨"openrouter/openai/gpt-5-image", "x", "", "", "", 1, none, "", "", 0⟩
      "http://a" "data:image/png;base64,AA" [9] [7] "jpeg" "png" none).1
      (by decide) (by decide) (by decide) (by decide) (by decide)
  · exact (C6_openrouter_two_shapes "k" ""
      ⟨fun _ => .ok 200 "" (some ⟨[⟨⟨[], .nonArray⟩⟩], none⟩),
       fun _ => none, fun _ => none⟩
      ⟨"openrouter/openai/gpt-5-image", "x", "", "", "", 1, none, "", "", 0⟩
      "" "" [] [] "" "" none).2 (by decide) (by decide)

/-- Counterexample to C7 as stated: in the dedicated image list (case A) a
failed download aborts the whole call with `failed to get image`, even
though the content-array image would decode successfully (its parse oracle
succeeds), so the claim that failures in either shape are skipped is false. -/
theorem C7_counterexample :
    (openrouterGenerate "k"
      ⟨fun _ => .ok 200 ""
          (some ⟨[⟨⟨[⟨"http://broken"⟩],
            .arr [.image (some "data:image/png;base64,AA")]⟩⟩], none⟩),
       fun u => if u == "data:image/png;base64,AA" then some ([7], "png") else none,
       fun _ => none⟩
      ⟨"openrouter/openai/gpt-5-image", "x", "", "", "", 1, none, "", "", 0⟩).1 =
        .error (.msg "failed to get image")
    ∧ (if "data:image/png;base64,AA" == "data:image/png;base64,AA"
        then some ([7], "png") else none) = some ([(7 : Nat)], "png") := by
  constructor
  · decide
  · decide

lemma orImagesB_skip_then_take (net : ORNet) (u2 u3 : String) (d3 : List Nat)
    (f3 : String) (hf2 : orFetch net u2 = none) (hf3 : orFetch net u3 = some (d3, f3)) :
    ∃ u' tr, orImagesB net [.image (some u2), .image (some u3)] 0 =
      ([⟨d3, u', f3, 1⟩], tr) := by
  rw [orFetch] at hf2 hf3
  by_cases hs2 : strStartsWith u2 "data:image/"
  all_goals by_cases hs3 : strStartsWith u3 "data:image/"
  · rw [if_pos hs2] at hf2; rw [if_pos hs3] at hf3
    exact ⟨"", [], by simp [orImagesB, hs2, hs3, hf2, hf3]⟩
  · rw [if_pos hs2] at hf2; rw [if_neg hs3] at hf3
    exact ⟨u3, [.download u3], by simp [orImagesB, hs2, hs3, hf2, hf3]⟩
  · rw [if_neg hs2] at hf2; rw [if_pos hs3] at hf3
    exact ⟨"", [.download u2], by simp [orImagesB, hs2, hs3, hf2, hf3]⟩
  · rw [if_neg hs2] at hf2; rw [if_neg hs3] at hf3
    exact ⟨u3, [.download u2, .download u3], by simp [orImagesB, hs2, hs3, hf2, hf3]⟩

lemma orImagesA_single_fail (net : ORNet) (u : String)
    (hu : u ≠ "") (hf : orFetch net u = none) :
    ∃ tr, orImagesA net [⟨u⟩] 0 = (.error "failed to get image", tr) := by
  have hu' : (u != "") = true := by simp [hu]
  rw [orFetch] at hf
  by_cases hs : strStartsWith u "data:image/"
  · rw [if_pos hs] at hf
    exact ⟨[], by simp [orImagesA, hu', hs, hf]⟩
  · rw [if_neg hs] at hf
    exact ⟨[.download u], by simp [orImagesA, hu', hs, hf]⟩

/-- C7 amended: only content-array (case B) parse/download failures are
skipped, the call still succeeding when at least one other image decodes; a
failure on a non-empty entry of the dedicated image list (case A) aborts the
whole call with `failed to get image`. -/
theorem C7_amended_caseB_skips_caseA_aborts (apiKey raw : String) (net : ORNet)
    (req : GenRequest) (u1 u2 u3 : String) (d1 d3 : List Nat) (f1 f3 : String)
    (em : Option String) :
    (apiKey ≠ "" →
      net.post (orBuildReq req) =
        .ok 200 raw
          (some ⟨[⟨⟨[⟨u1⟩], .arr [.image (some u2), .image (some u3)]⟩⟩], em⟩) →
      u1 ≠ "" →
      orFetch net u1 = some (d1, f1) →
      orFetch net u2 = none →
      orFetch net u3 = some (d3, f3) →
      (resImages (openrouterGenerate apiKey net req).1).map (fun im => im.data) =
        [d1, d3])
    ∧ (apiKey ≠ "" →
      net.post (orBuildReq req) =
        .ok 200 raw
          (some ⟨[⟨⟨[⟨u1⟩], .arr [.image (some u2), .image (some u3)]⟩⟩], em⟩) →
      u1 ≠ "" →
      orFetch net u1 = none →
      (openrouterGenerate apiKey net req).1 = .error (.msg "failed to get image")) := by
  constructor
  · intro hk hpost hu hf1 hf2 hf3
    obtain ⟨trA, hA⟩ := orImagesA_single net u1 d1 f1 hu hf1
    obtain ⟨u', trB, hB⟩ := orImagesB_skip_then_take net u2 u3 d3 f3 hf2 hf3
    simp only [openrouterGenerate, openrouterValidate_none apiKey req hk, hpost,
      hA, hB, resImages]
    simp
  · intro hk hpost hu hf1
    obtain ⟨trA, hA⟩ := orImagesA_single_fail net u1 hu hf1
    simp only [openrouterGenerate, openrouterValidate_none apiKey req hk, hpost, hA]
    simp

/-- Witness for the amended C7 at concrete inputs: a content-array image that
fails to download is skipped and the call succeeds with the dedicated image
and the remaining content image; a failing dedicated-list image aborts. -/
theorem C7_amended_witness :
    (resImages (openrouterGenerate "k"
      ⟨fun _ => .ok 200 ""
          (some ⟨[⟨⟨[⟨"http://a"⟩],
            .arr [.image (some "http://skipme"), .image (some "http://b")]⟩⟩], none⟩),
       fun _ => none,
       fun u => if u == "http://a" then some ([1], "png")
         else if u == "http://b" then some ([2], "png") else none⟩
      ⟨"openrouter/openai/gpt-5-image", "x", "", "", "", 1, none, "", "", 0⟩).1).map
        (fun im => im.data) = [[1], [2]]
    ∧ (openrouterGenerate "k"
      ⟨fun _ => .ok 200 ""
          (some ⟨[⟨⟨[⟨"http://broken"⟩],
            .arr [.image (some "http://skipme"), .image (some "http://b")]⟩⟩], none⟩),
       fun _ => none,
       fun u => if u == "http://b" then some ([2], "png") else none⟩
      ⟨"openrouter/openai/gpt-5-image", "x", "", "", "", 1, none, "", "", 0⟩).1 =
        .error (.msg "failed to get image") := by
  constructor
  · exact (C7_amended_caseB_skips_caseA_aborts "k" ""
      ⟨fun _ => .ok 200 ""
          (some ⟨[⟨⟨[⟨"http://a"⟩],
            .arr [.image (some "http://skipme"), .image (some "http://b")]⟩⟩], none⟩),
       fun _ => none,
       fun u => if u == "http://a" then some ([1], "png")
         else if u == "http://b" then some ([2], "png") else none⟩
      ⟨"openrouter/openai/gpt-5-image", "x", "", "", "", 1, none, "", "", 0⟩
      "http://a" "http://skipme" "http://b" [1] [2] "png" "png" none).1
      (by decide) (by decide) (by decide) (by decide) (by decide) (by decide)
  · exact (C7_amended_caseB_skips_caseA_aborts "k" ""
      ⟨fun _ => .ok 200 ""
          (some ⟨[⟨⟨[⟨"http://broken"⟩],
            .arr [.image (some "http://skipme"), .image (some "http://b")]⟩⟩], none⟩),
       fun _ => none,
       fun u => if u == "http://b" then some ([2], "png") else none⟩
      ⟨"openrouter/openai/gpt-5-image", "x", "", "", "", 1, none, "", "", 0⟩
      "http://broken" "http://skipme" "http://b" [] [] "" "" none).2
      (by decide) (by decide) (by decide) (by decide)

/-! ## C8: Replicate submit/poll state machine -/

lemma replicatePoll_wait_before_fetch (poll : Nat → String → Except String Prediction)
    (cancelAt : Option Nat) :
    ∀ fuel k elapsed p u,
      RepEv.fetch u ∈ (replicatePoll poll cancelAt fuel k elapsed p).2 →
      ∃ pre post, (replicatePoll poll cancelAt fuel k elapsed p).2 =
        pre ++ .wait 2 :: .fetch u :: post := by
  intro fuel
  induction fuel with
  | zero =>
    intro k elapsed p u hmem
    rw [replicatePoll] at hmem
    by_cases ht : (p.status == "succeeded" || p.status == "failed") = true
    · rw [if_pos ht] at hmem; simp at hmem
    · rw [if_neg ht] at hmem; simp at hmem
  | succ fuel ih =>
    intro k elapsed p u hmem
    rw [replicatePoll] at hmem ⊢
    by_cases ht : (p.status == "succeeded" || p.status == "failed") = true
    · rw [if_pos ht] at hmem; simp at hmem
    · rw [if_neg ht] at hmem ⊢
      dsimp only at hmem ⊢
      by_cases hc : cancelsDuring cancelAt elapsed 2 = true
      · rw [if_pos hc] at hmem; simp at hmem
      · rw [if_neg hc] at hmem ⊢
        rcases hp : poll k p.urlGet with m | p'
        · rw [hp] at hmem
          dsimp only at hmem
          simp at hmem
          subst hmem
          exact ⟨[], [], by simp⟩
        · rw [hp] at hmem
          dsimp only at hmem
          rw [List.mem_cons, List.mem_cons] at hmem
          rcases hmem with hmem | hmem | hmem
          · exact absurd hmem (by simp)
          · rcases hmem
            exact ⟨[], (replicatePoll poll cancelAt fuel (k + 1) (elapsed + 2) p').2,
              by simp⟩
          · obtain ⟨pre, post, hsplit⟩ := ih (k + 1) (elapsed + 2) p' u hmem
            exact ⟨.wait 2 :: .fetch p.urlGet :: pre, post,
              by dsimp only; rw [hsplit]; simp⟩

lemma replicatePoll_cancelled (poll : Nat → String → Except String Prediction)
    (cancelAt : Option Nat) (fuel k elapsed : Nat) (p : Prediction)
    (h1 : p.status ≠ "succeeded") (h2 : p.status ≠ "failed")
    (hc : cancelsDuring cancelAt elapsed 2 = true) :
    replicatePoll poll cancelAt (fuel + 1) k elapsed p = (.error .cancelled, []) := by
  rw [replicatePoll]
  have ht : (p.status == "succeeded" || p.status == "failed") = false := by
    simp [h1, h2]
  rw [ht]
  simp [hc]

lemma replicatePoll_terminal (poll : Nat → String → Except String Prediction)
    (cancelAt : Option Nat) (fuel k elapsed : Nat) (p : Prediction)
    (ht : (p.status == "succeeded" || p.status == "failed") = true) :
    replicatePoll poll cancelAt fuel k elapsed p = (.ok p, []) := by
  cases fuel with
  | zero => rw [replicatePoll, if_pos ht]
  | succ n => rw [replicatePoll, if_pos ht]

lemma replicatePoll_two_steps (poll : Nat → String → Except String Prediction)
    (p0 p1 p2 : Prediction) (fuel : Nat)
    (h0 : p0.status = "queued") (h1 : p1.status = "processing")
    (h2 : p2.status = "succeeded")
    (hp0 : poll 0 p0.urlGet = .ok p1) (hp1 : poll 1 p1.urlGet = .ok p2) :
    replicatePoll poll none (fuel + 2) 0 0 p0 =
      (.ok p2, [.wait 2, .fetch p0.urlGet, .wait 2, .fetch p1.urlGet]) := by
  show replicatePoll poll none (fuel + 1 + 1) 0 0 p0 =
    (.ok p2, [.wait 2, .fetch p0.urlGet, .wait 2, .fetch p1.urlGet])
  rw [replicatePoll]
  have ht0 : (p0.status == "succeeded" || p0.status == "failed") = false := by simp [h0]
  rw [ht0]
  simp only [Bool.false_eq_true, if_false, cancelsDuring, hp0]
  rw [replicatePoll]
  have ht1 : (p1.status == "succeeded" || p1.status == "failed") = false := by simp [h1]
  rw [ht1]
  simp only [Bool.false_eq_true, if_false, cancelsDuring, hp1]
  have ht2 : (p2.status == "succeeded" || p2.status == "failed") = true := by simp [h2]
  rw [replicatePoll_terminal poll none fuel 2 4 p2 ht2]

lemma replicatePoll_one_step_failed (poll : Nat → String → Except String Prediction)
    (p0 pf : Prediction) (fuel : Nat)
    (h0 : p0.status = "queued") (hf : pf.status = "failed")
    (hp : poll 0 p0.urlGet = .ok pf) :
    replicatePoll poll none (fuel + 1) 0 0 p0 =
      (.ok pf, [.wait 2, .fetch p0.urlGet]) := by
  rw [replicatePoll]
  have ht0 : (p0.status == "succeeded" || p0.status == "failed") = false := by simp [h0]
  rw [ht0]
  simp only [Bool.false_eq_true, if_false, cancelsDuring, hp]
  have htf : (pf.status == "succeeded" || pf.status == "failed") = true := by simp [hf]
  rw [replicatePoll_terminal poll none fuel 1 2 pf htf]

lemma replicateDownloadAll_two (download : String → Option (List Nat × String))
    (u1 u2 : String) (d1 d2 : List Nat) (f1 f2 : String)
    (h1 : download u1 = some (d1, f1)) (h2 : download u2 = some (d2, f2)) :
    replicateDownloadAll download [u1, u2] 0 =
      (.ok [⟨d1, u1, f1, 0⟩, ⟨d2, u2, f2, 1⟩], [.download u1, .download u2]) := by
  simp [replicateDownloadAll, h1, h2, Except.map]

lemma replicateValidate_none (apiKey : String) (req : GenRequest)
    (h : apiKey ≠ "") : replicateValidate apiKey req = none := by
  simp [replicateValidate, h]

/-- C8: for the Replicate adapter, while the job is in neither terminal state
every re-fetch (from the job's own status URL) is immediately preceded by a
completed fixed 2-unit wait, and the wait is cancellable — a cancellation
during it stops the loop with the cancellation error and no further fetch;
a `queued → processing → succeeded` run with a two-element string-list output
yields exactly two images at indices 0 and 1 in list order; a job that
reaches `failed` surfaces the job's own error text with no image downloads. -/
theorem C8_replicate_submit_poll (apiKey raw : String) (net : RepNet)
    (req : GenRequest) (p0 p1 p2 pf p : Prediction) (fuel k elapsed : Nat)
    (cancelAt : Option Nat) (u1 u2 u : String) (d1 d2 : List Nat) (f1 f2 : String) :
    (RepEv.fetch u ∈ (replicatePoll net.poll cancelAt fuel k elapsed p).2 →
      ∃ pre post, (replicatePoll net.poll cancelAt fuel k elapsed p).2 =
        pre ++ .wait 2 :: .fetch u :: post)
    ∧ (p.status ≠ "succeeded" → p.status ≠ "failed" →
        cancelsDuring cancelAt elapsed 2 = true →
        replicatePoll net.poll cancelAt (fuel + 1) k elapsed p =
          (.error .cancelled, []))
    ∧ (apiKey ≠ "" →
        net.post (replicateBuildReq req) = .ok 201 raw (some p0) →
        p0.status = "queued" → p1.status = "processing" → p2.status = "succeeded" →
        p2.output = .arr [.str u1, .str u2] →
        net.poll 0 p0.urlGet = .ok p1 → net.poll 1 p1.urlGet = .ok p2 →
        net.download u1 = some (d1, f1) → net.download u2 = some (d2, f2) →
        replicateGenerate apiKey net none (fuel + 2) req =
          (.ok ⟨[⟨d1, u1, f1, 0⟩, ⟨d2, u2, f2, 1⟩], req.model, "replicate", ""⟩,
           [.post (replicateBuildReq req), .wait 2, .fetch p0.urlGet,
            .wait 2, .fetch p1.urlGet, .download u1, .download u2]))
    ∧ (apiKey ≠ "" →
        net.post (replicateBuildReq req) = .ok 201 raw (some p0) →
        p0.status = "queued" → pf.status = "failed" →
        net.poll 0 p0.urlGet = .ok pf →
        replicateGenerate apiKey net none (fuel + 1) req =
          (.error (.msg ("Replicate generation failed: " ++ pf.error)),
           [.post (replicateBuildReq req), .wait 2, .fetch p0.urlGet])) := by
  refine ⟨?_, ?_, ?_, ?_⟩
  · intro hmem
    exact replicatePoll_wait_before_fetch net.poll cancelAt fuel k elapsed p u hmem
  · intro h1 h2 hc
    exact replicatePoll_cancelled net.poll cancelAt fuel k elapsed p h1 h2 hc
  · intro hk hpost h0 h1 h2 hout hp0 hp1 hd1 hd2
    have hpoll := replicatePoll_two_steps net.poll p0 p1 p2 fuel h0 h1 h2 hp0 hp1
    have hdl := replicateDownloadAll_two net.download u1 u2 d1 d2 f1 f2 hd1 hd2
    simp only [replicateGenerate, replicateValidate_none apiKey req hk, hpost,
      hpoll, hout, replicateExtractURLs]
    simp [h2, hdl]
  · intro hk hpost h0 hf hp
    have hpoll := replicatePoll_one_step_failed net.poll p0 pf fuel h0 hf hp
    simp only [replicateGenerate, replicateValidate_none apiKey req hk, hpost, hpoll]
    simp [hf]

/-- Witness for C8 at concrete inputs: a queued job that becomes processing
and then succeeds with two output URLs yields the two downloads in order; a
queued job that fails surfaces its error text with no downloads. -/
theorem C8_replicate_submit_poll_witness :
    replicateGenerate "k"
      ⟨fun _ => .ok 201 "" (some ⟨"queued", .other, "", "https://poll/0"⟩),
       fun k _ => if k = 0 then .ok ⟨"processing", .other, "", "https://poll/1"⟩
         else .ok ⟨"succeeded", .arr [.str "https://img/0", .str "https://img/1"], "",
           "https://poll/2"⟩,
       fun u => if u == "https://img/0" then some ([1], "webp")
         else if u == "https://img/1" then some ([2], "webp") else none⟩
      none 2 ⟨"replicate/sdxl", "x", "", "", "", 1, none, "", "", 0⟩ =
      (.ok ⟨[⟨[1], "https://img/0", "webp", 0⟩, ⟨[2], "https://img/1", "webp", 1⟩],
        "replicate/sdxl", "replicate", ""⟩,
       [.post (replicateBuildReq ⟨"replicate/sdxl", "x", "", "", "", 1, none, "", "", 0⟩),
        .wait 2, .fetch "https://poll/0", .wait 2, .fetch "https://poll/1",
        .download "https://img/0", .download "https://img/1"])
    ∧ replicateGenerate "k"
      ⟨fun _ => .ok 201 "" (some ⟨"queued", .other, "", "https://poll/0"⟩),
       fun _ _ => .ok ⟨"failed", .other, "NSFW content detected", "https://poll/f"⟩,
       fun _ => none⟩
      none 1 ⟨"replicate/sdxl", "x", "", "", "", 1, none, "", "", 0⟩ =
      (.error (.msg ("Replicate generation failed: " ++ "NSFW content detected")),
       [.post (replicateBuildReq ⟨"replicate/sdxl", "x", "", "", "", 1, none, "", "", 0⟩),
        .wait 2, .fetch "https://poll/0"]) := by
  constructor
  · exact (C8_replicate_submit_poll "k" ""
      ⟨fun _ => .ok 201 "" (some ⟨"queued", .other, "", "https://poll/0"⟩),
       fun k _ => if k = 0 then .ok ⟨"processing", .other, "", "https://poll/1"⟩
         else .ok ⟨"succeeded", .arr [.str "https://img/0", .str "https://img/1"], "",
           "https://poll/2"⟩,
       fun u => if u == "https://img/0" then some ([1], "webp")
         else if u == "https://img/1" then some ([2], "webp") else none⟩
      ⟨"replicate/sdxl", "x", "", "", "", 1, none, "", "", 0⟩
      ⟨"queued", .other, "", "https://poll/0"⟩
      ⟨"processing", .other, "", "https://poll/1"⟩
      ⟨"succeeded", .arr [.str "https://img/0", .str "https://img/1"], "", "https://poll/2"⟩
      ⟨"failed", .other, "", ""⟩ ⟨"queued", .other, "", ""⟩ 0 0 0 none
      "https://img/0" "https://img/1" "" [1] [2] "webp" "webp").2.2.1
      (by decide) (by decide) rfl rfl rfl rfl (by decide) (by decide)
      (by decide) (by decide)
  · exact (C8_replicate_submit_poll "k" ""
      ⟨fun _ => .ok 201 "" (some ⟨"queued", .other, "", "https://poll/0"⟩),
       fun _ _ => .ok ⟨"failed", .other, "NSFW content detected", "https://poll/f"⟩,
       fun _ => none⟩
      ⟨"replicate/sdxl", "x", "", "", "", 1, none, "", "", 0⟩
      ⟨"queued", .other, "", "https://poll/0"⟩
      ⟨"queued", .other, "", ""⟩ ⟨"queued", .other, "", ""⟩
      ⟨"failed", .other, "NSFW content detected", "https://poll/f"⟩
      ⟨"queued", .other, "", ""⟩ 0 0 0 none "" "" "" [] [] "" "").2.2.2
      (by decide) (by decide) rfl rfl (by decide)

/-! ## C10: image indices within a response -/

/-- Evaluation of `OpenRouter.Generate` at a failing input for C10: a 200
response with one (downloadable) image in the dedicated list and one in the
content array produces two images whose `Index` fields are `[0, 0]` — the
second image's index is its position in the backend's content array, not its
zero-based position (1) in the response's image list. -/
theorem C10_openrouter_index_not_positional :
    (resImages (openrouterGenerate "k"
      ⟨fun _ => .ok 200 ""
          (some ⟨[⟨⟨[⟨"http://a"⟩], .arr [.image (some "http://b")]⟩⟩], none⟩),
       fun _ => none,
       fun u => if u == "http://a" then some ([1], "png")
         else if u == "http://b" then some ([2], "png") else none⟩
      ⟨"openrouter/openai/gpt-5-image", "x", "", "", "", 1, none, "", "", 0⟩).1).map
        (fun im => im.index) = [0, 0] := by
  decide

end LLMImager
